import Mathlib

/-!
Verification of the status-line renderer in `src/utils/statusline.ts`.

Strings of the JavaScript source are embedded as `List Char` (named `Str`).
JavaScript `parseInt(s, 16)`, `String.prototype.trim`, regular-expression
template substitution and the ANSI escape builders are modelled explicitly.
External effects (file system, environment, JSON parsing, script modules,
git) are oracle parameters, so every renderer-level theorem quantifies over
their behaviour.  Optional string fields of module records are modelled as
plain strings with the empty string standing for `undefined`; the source
only ever observes those fields through JavaScript truthiness, for which
the two are indistinguishable.
-/

namespace StatusLine

abbrev Str := List Char

/-- RGB triple as produced by the color resolvers (channels in 0..255). -/
structure Rgb where
  r : Nat
  g : Nat
  b : Nat
deriving DecidableEq, Repr

/-- Decimal digit character, used by the numeral printer. -/
def digitChar (n : Nat) : Char :=
  match n with
  | 0 => '0' | 1 => '1' | 2 => '2' | 3 => '3' | 4 => '4'
  | 5 => '5' | 6 => '6' | 7 => '7' | 8 => '8' | _ => '9'

/-- Fuelled decimal printer (fuel keeps the recursion structural, so
    concrete values reduce inside `decide`). -/
def natToStrAux : Nat → Nat → Str
  | 0, _ => []
  | fuel + 1, n => if n < 10 then [digitChar n] else natToStrAux fuel (n / 10) ++ [digitChar (n % 10)]

/-- Decimal rendering of a natural number, as produced by JS template
    interpolation of a nonnegative integer. -/
def natToStr (n : Nat) : Str := natToStrAux (n + 1) n

/-- Whitespace recognised by JavaScript `String.prototype.trim`
    (ECMAScript WhiteSpace and LineTerminator code points). -/
def isJsSpace (c : Char) : Bool :=
  let n := c.toNat
  n == 9 || n == 10 || n == 11 || n == 12 || n == 13 || n == 32 ||
  n == 160 || n == 5760 || (Nat.ble 8192 n && Nat.ble n 8202) ||
  n == 8232 || n == 8233 || n == 8239 || n == 8287 || n == 12288 || n == 65279

/-- JavaScript `trim`: strip leading and trailing whitespace. -/
def jsTrim (l : Str) : Str :=
  ((l.dropWhile isJsSpace).reverse.dropWhile isJsSpace).reverse

/-- Hexadecimal digit (0-9, a-f, A-F). -/
def isHexDigit (c : Char) : Bool :=
  let n := c.toNat
  (Nat.ble 48 n && Nat.ble n 57) || (Nat.ble 97 n && Nat.ble n 102) ||
  (Nat.ble 65 n && Nat.ble n 70)

/-- Value of a hexadecimal digit (meaningful only when `isHexDigit`). -/
def hexVal (c : Char) : Nat :=
  let n := c.toNat
  if 97 ≤ n then n - 87 else if 65 ≤ n then n - 55 else n - 48

/-- Accumulated value of a run of hexadecimal digits. -/
def hexDigitsVal (ds : Str) : Nat :=
  ds.foldl (fun a c => 16 * a + hexVal c) 0

/-- JavaScript `parseInt(s, 16)`: skip whitespace, optional sign, optional
    `0x`/`0X`, then the longest run of hex digits; no digits means NaN
    (`none`).  Trailing garbage is ignored. -/
def parseIntHex (l : Str) : Option Int :=
  let l1 := l.dropWhile isJsSpace
  let sl : Int × Str :=
    match l1 with
    | c :: r => if c = '-' then (-1, r) else if c = '+' then (1, r) else (1, l1)
    | [] => (1, [])
  let l3 : Str :=
    match sl.2 with
    | c1 :: c2 :: r => if c1 = '0' ∧ (c2 = 'x' ∨ c2 = 'X') then r else sl.2
    | _ => sl.2
  let ds := l3.takeWhile isHexDigit
  if ds = [] then none else some (sl.1 * (hexDigitsVal ds : Int))

/-- The `hex.replace` of a single leading `#` in `hexToRgb`. -/
def stripLeadingHash (l : Str) : Str :=
  match l with
  | c :: r => if c = '#' then r else l
  | [] => []

/-- Core of `hexToRgb` once the digits are normalised to 6 characters:
    parse the three 2-character substrings with `parseInt(_, 16)` and
    validate the 0..255 range. -/
def hexParse6 (h : Str) : Option Rgb :=
  if h.length = 6 then
    match parseIntHex (h.take 2), parseIntHex ((h.drop 2).take 2), parseIntHex ((h.drop 4).take 2) with
    | some r, some g, some b =>
      if 0 ≤ r ∧ r ≤ 255 ∧ 0 ≤ g ∧ g ≤ 255 ∧ 0 ≤ b ∧ b ≤ 255 then
        some ⟨r.toNat, g.toNat, b.toNat⟩
      else none
    | _, _, _ => none
  else none

/-- `hexToRgb` from the source: strip a leading `#`, trim, expand 3-digit
    shorthand by duplicating each digit, then parse. -/
def hexToRgb (hex : Str) : Option Rgb :=
  let h0 := jsTrim (stripLeadingHash hex)
  hexParse6 (match h0 with
    | [a, b, c] => [a, a, b, b, c, c]
    | _ => h0)

/-- The regex test `^[0-9a-fA-F]{6}$`. -/
def isHex6 (l : Str) : Bool := l.length == 6 && l.all isHexDigit

/-- The regex test `^[0-9a-fA-F]{3}$`. -/
def isHex3 (l : Str) : Bool := l.length == 3 && l.all isHexDigit

/-- The `colorName.startsWith('#')` test. -/
def startsWithHashChar (l : Str) : Bool :=
  match l with
  | c :: _ => c = '#'
  | [] => false

/-- Basic 16-color RGB table of `color256ToRgb`. -/
def basicColors : List (Nat × Nat × Nat) :=
  [(0, 0, 0), (128, 0, 0), (0, 128, 0), (128, 128, 0),
   (0, 0, 128), (128, 0, 128), (0, 128, 128), (192, 192, 192),
   (128, 128, 128), (255, 0, 0), (0, 255, 0), (255, 255, 0),
   (0, 0, 255), (255, 0, 255), (0, 255, 255), (255, 255, 255)]

/-- `color256ToRgb` from the source: basic table below 16, the 6x6x6 cube
    for 16..231, grayscale above. -/
def color256ToRgb (index : Int) : Option Rgb :=
  if index < 0 ∨ index > 255 then none
  else
    let idx := index.toNat
    if idx < 16 then
      let t := basicColors.getD idx (0, 0, 0)
      some ⟨t.1, t.2.1, t.2.2⟩
    else if idx < 232 then
      let i := idx - 16
      let r := i / 36
      let g := (i % 36) / 6
      let b := i % 6
      let lv : List Nat := [0, 95, 135, 175, 215, 255]
      some ⟨lv.getD r 0, lv.getD g 0, lv.getD b 0⟩
    else
      let gray := 8 + (idx - 232) * 10
      some ⟨gray, gray, gray⟩

/-- `COLOR_MAP`: 256-color indices for the named colors used by the
    powerline renderer. -/
def colorMap : List (Str × Nat) :=
  [("black".data, 0), ("red".data, 1), ("green".data, 2), ("yellow".data, 3),
   ("blue".data, 4), ("magenta".data, 5), ("cyan".data, 6), ("white".data, 7),
   ("bright_black".data, 8), ("bright_red".data, 9), ("bright_green".data, 10),
   ("bright_yellow".data, 11), ("bright_blue".data, 12), ("bright_magenta".data, 13),
   ("bright_cyan".data, 14), ("bright_white".data, 15),
   ("bg_black".data, 0), ("bg_red".data, 1), ("bg_green".data, 2), ("bg_yellow".data, 3),
   ("bg_blue".data, 4), ("bg_magenta".data, 5), ("bg_cyan".data, 6), ("bg_white".data, 7),
   ("bg_bright_black".data, 8), ("bg_bright_red".data, 9), ("bg_bright_green".data, 10),
   ("bg_bright_yellow".data, 11), ("bg_bright_blue".data, 12), ("bg_bright_magenta".data, 13),
   ("bg_bright_cyan".data, 14), ("bg_bright_white".data, 15),
   ("bg_bright_orange".data, 202), ("bg_bright_purple".data, 129)]

/-- `getTrueColorRgb` from the source: named colors through the 256-color
    table, then hex forms, then `bg_#`-prefixed hex. -/
def getTrueColorRgb (colorName : Str) : Option Rgb :=
  match colorMap.lookup colorName with
  | some c => color256ToRgb (c : Int)
  | none =>
    if startsWithHashChar colorName || isHex6 colorName || isHex3 colorName then
      hexToRgb colorName
    else if colorName.take 4 = "bg_#".data then
      hexToRgb (colorName.drop 3)
    else none

/-- `COLORS` escape-code table of the default-style renderer. -/
def colorsTable : List (Str × Str) :=
  [("reset".data, "\x1b[0m".data), ("bold".data, "\x1b[1m".data), ("dim".data, "\x1b[2m".data),
   ("black".data, "\x1b[30m".data), ("red".data, "\x1b[31m".data), ("green".data, "\x1b[32m".data),
   ("yellow".data, "\x1b[33m".data), ("blue".data, "\x1b[34m".data), ("magenta".data, "\x1b[35m".data),
   ("cyan".data, "\x1b[36m".data), ("white".data, "\x1b[37m".data),
   ("bright_black".data, "\x1b[90m".data), ("bright_red".data, "\x1b[91m".data),
   ("bright_green".data, "\x1b[92m".data), ("bright_yellow".data, "\x1b[93m".data),
   ("bright_blue".data, "\x1b[94m".data), ("bright_magenta".data, "\x1b[95m".data),
   ("bright_cyan".data, "\x1b[96m".data), ("bright_white".data, "\x1b[97m".data),
   ("bg_black".data, "\x1b[40m".data), ("bg_red".data, "\x1b[41m".data),
   ("bg_green".data, "\x1b[42m".data), ("bg_yellow".data, "\x1b[43m".data),
   ("bg_blue".data, "\x1b[44m".data), ("bg_magenta".data, "\x1b[45m".data),
   ("bg_cyan".data, "\x1b[46m".data), ("bg_white".data, "\x1b[47m".data),
   ("bg_bright_black".data, "\x1b[100m".data), ("bg_bright_red".data, "\x1b[101m".data),
   ("bg_bright_green".data, "\x1b[102m".data), ("bg_bright_yellow".data, "\x1b[103m".data),
   ("bg_bright_blue".data, "\x1b[104m".data), ("bg_bright_magenta".data, "\x1b[105m".data),
   ("bg_bright_cyan".data, "\x1b[106m".data), ("bg_bright_white".data, "\x1b[107m".data)]

/-- `COLORS.reset`. -/
def resetCode : Str := "\x1b[0m".data

/-- 24-bit foreground escape `TRUE_COLOR_PREFIX r;g;b m`. -/
def trueColorFg (r g b : Nat) : Str :=
  "\x1b[38;2;".data ++ natToStr r ++ ";".data ++ natToStr g ++ ";".data ++ natToStr b ++ "m".data

/-- 24-bit background escape `TRUE_COLOR_BG_PREFIX r;g;b m`. -/
def trueColorBg (r g b : Nat) : Str :=
  "\x1b[48;2;".data ++ natToStr r ++ ";".data ++ natToStr g ++ ";".data ++ natToStr b ++ "m".data

/-- `getColorCode` from the source: hex forms become truecolor escapes,
    named colors use the `COLORS` table, anything else is the empty
    string. -/
def getColorCode (colorName : Str) : Str :=
  let hexish := startsWithHashChar colorName || isHex6 colorName || isHex3 colorName
  match (if hexish then hexToRgb colorName else none) with
  | some rgb => trueColorFg rgb.r rgb.g rgb.b
  | none => (colorsTable.lookup colorName).getD []

/-- `StatusLineModuleConfig`.  The optional fields of the TypeScript
    interface are plain strings here, empty standing for `undefined`:
    the source reads them only through truthiness tests, under which
    `undefined` and `""` coincide. -/
structure StatusLineModuleConfig where
  type : Str
  icon : Str := []
  text : Str
  color : Str := []
  background : Str := []
  scriptPath : Str := []
deriving DecidableEq, Repr

/-- `StatusLineThemeConfig`: ordered module list. -/
structure StatusLineThemeConfig where
  modules : List StatusLineModuleConfig
deriving DecidableEq, Repr

/-- The flat variable map consumed by templates, as an association list. -/
abbrev VarMap := List (Str × Str)

/-- `variables[varName] || ""`. -/
def lookupVar (vars : VarMap) (name : Str) : Str :=
  (vars.lookup name).getD []

/-- Word character of the regex class used in the template grammar
    (`A-Z a-z 0-9 _`). -/
def isWordChar (c : Char) : Bool :=
  let n := c.toNat
  (Nat.ble 48 n && Nat.ble n 57) || (Nat.ble 65 n && Nat.ble n 90) ||
  (Nat.ble 97 n && Nat.ble n 122) || n == 95

/-- Fuelled global scan for the substitution regex: at each position try to
    match an opening double brace, a nonempty run of word characters and a
    closing double brace; on a match emit the variable value and continue
    after it, otherwise emit the character and continue one to the right
    (exactly the left-to-right non-overlapping global replace). -/
def replaceVarsAux (vars : VarMap) : Nat → Str → Str
  | 0, l => l
  | _ + 1, [] => []
  | fuel + 1, c :: cs =>
    if c = '\x7b' then
      match cs with
      | c2 :: cs2 =>
        if c2 = '\x7b' then
          let w := cs2.takeWhile isWordChar
          let rest := cs2.drop w.length
          if w ≠ [] ∧ rest.take 2 = ['\x7d', '\x7d'] then
            lookupVar vars w ++ replaceVarsAux vars fuel (rest.drop 2)
          else c :: replaceVarsAux vars fuel cs
        else c :: replaceVarsAux vars fuel cs
      | [] => [c]
    else c :: replaceVarsAux vars fuel cs

/-- `replaceVariables` from the source. -/
def replaceVariables (vars : VarMap) (text : Str) : Str :=
  replaceVarsAux vars text.length text

/-- Text acquisition shared by both renderers: script modules with a
    truthy `scriptPath` go through the script contract (an oracle `exec`,
    since `executeScript` catches its own failures and always yields a
    string), everything else is template substitution. -/
def acquireText (exec : Str → VarMap → Str) (vars : VarMap)
    (m : StatusLineModuleConfig) : Str :=
  if m.type = "script".data ∧ m.scriptPath ≠ [] then exec m.scriptPath vars
  else replaceVariables vars m.text

/-- Icon-prefixed display text built by both renderers. -/
def displayTextOf (icon text : Str) : Str :=
  (if icon ≠ [] then icon ++ [' '] else []) ++ text

/-- One module of the default style: `none` when the module is skipped. -/
def renderModuleDefault (exec : Str → VarMap → Str) (vars : VarMap)
    (m : StatusLineModuleConfig) : Option Str :=
  let color := if m.color ≠ [] then getColorCode m.color else []
  let background := if m.background ≠ [] then getColorCode m.background else []
  let text := acquireText exec vars m
  let displayText := displayTextOf m.icon text
  if displayText = [] ∨ text = [] then none
  else some (background ++ color ++ displayText ++ resetCode)

/-- Surviving parts of the default-style render (first five modules).
    The source's `theme.modules || DEFAULT_THEME.modules` fallback is
    unreachable for well-typed themes, because a JS array (even empty) is
    truthy, so it is omitted here. -/
def renderDefaultParts (exec : Str → VarMap → Str) (vars : VarMap)
    (theme : StatusLineThemeConfig) : List Str :=
  (theme.modules.take 5).filterMap (renderModuleDefault exec vars)

/-- `renderDefaultStyle`: parts joined with single spaces. -/
def renderDefaultStyle (exec : Str → VarMap → Str) (vars : VarMap)
    (theme : StatusLineThemeConfig) : Str :=
  List.intercalate [' '] (renderDefaultParts exec vars theme)

/-- Powerline separator glyph `SEP_RIGHT`. -/
def sepChar : Char := '\uE0B0'

/-- Separator escape triple emitted after a segment: foreground from the
    current background, background from the resolved next background. -/
def sepGlyph (cur next : Rgb) : Str :=
  trueColorFg cur.r cur.g cur.b ++ trueColorBg next.r next.g next.b ++ [sepChar] ++ resetCode

/-- Segment body `<bg><fg> text <reset>`. -/
def segBody (bg fg : Rgb) (text : Str) : Str :=
  trueColorBg bg.r bg.g bg.b ++ trueColorFg fg.r fg.g fg.b ++ [' '] ++ text ++ [' '] ++ resetCode

/-- `segment` from the source: unresolvable background falls back to a
    default blue body with white text and no separator; otherwise the body
    is followed by a separator exactly when a next background name was
    supplied, with black standing in when that name does not resolve. -/
def segment (text textFg bgColor : Str) (nextBgColor : Option Str) : Str :=
  match getTrueColorRgb bgColor with
  | none => segBody ⟨33, 150, 243⟩ ⟨255, 255, 255⟩ text
  | some bgRgb =>
    let fgRgb := (getTrueColorRgb textFg).getD ⟨255, 255, 255⟩
    let body := segBody bgRgb fgRgb text
    match nextBgColor with
    | some nb =>
      match getTrueColorRgb nb with
      | some nextBgRgb => body ++ sepGlyph bgRgb nextBgRgb
      | none => body ++ sepGlyph bgRgb ⟨0, 0, 0⟩
    | none => body

/-- Lookahead of `renderPowerlineStyle`: background name of the module one
    position ahead in the (unfiltered) module list, `null` when there is no
    next module or it has no truthy background. -/
def nextBackgroundAt (modules : List StatusLineModuleConfig) (i : Nat) : Option Str :=
  if i < modules.length - 1 then
    match modules.get? (i + 1) with
    | some nm => if nm.background ≠ [] then some nm.background else none
    | none => none
  else none

/-- One powerline module given its (already looked up) next-background
    name: skip on empty text, otherwise emit a segment with the module
    background (or the default blue accent) and white as the fallback
    foreground. -/
def renderSegModule (exec : Str → VarMap → Str) (vars : VarMap)
    (m : StatusLineModuleConfig) (nextBackground : Option Str) : Option Str :=
  let color := if m.color ≠ [] then m.color else "white".data
  let text := acquireText exec vars m
  let displayText := displayTextOf m.icon text
  if displayText = [] ∨ text = [] then none
  else
    let actualBackground := if m.background ≠ [] then m.background else "bg_bright_blue".data
    some (segment displayText color actualBackground nextBackground)

/-- One loop iteration of `renderPowerlineStyle` at index `i`. -/
def renderModulePowerline (exec : Str → VarMap → Str) (vars : VarMap)
    (modules : List StatusLineModuleConfig) (i : Nat) : Option Str :=
  (modules.get? i).bind (fun m => renderSegModule exec vars m (nextBackgroundAt modules i))

/-- Surviving segments of the powerline render (first five indices).
    As in the default style, the `|| POWERLINE_THEME.modules` fallback is
    unreachable for well-typed themes and is omitted. -/
def renderPowerlineSegs (exec : Str → VarMap → Str) (vars : VarMap)
    (theme : StatusLineThemeConfig) : List Str :=
  (List.range (min theme.modules.length 5)).filterMap
    (renderModulePowerline exec vars theme.modules)

/-- `renderPowerlineStyle`: segments concatenated with no separator
    between them. -/
def renderPowerlineStyle (exec : Str → VarMap → Str) (vars : VarMap)
    (theme : StatusLineThemeConfig) : Str :=
  (renderPowerlineSegs exec vars theme).flatten

/-- `message.usage` fields of a transcript record.  Absent fields behave
    like 0 under the `|| 0` defaulting of the source, so they are plain
    naturals here. -/
structure UsageRec where
  input_tokens : Nat := 0
  output_tokens : Nat := 0
  cache_creation_input_tokens : Nat := 0
  cache_read_input_tokens : Nat := 0
deriving DecidableEq, Repr

/-- `message` body of a transcript record (model name and usage). -/
structure MsgBody where
  model : Str := []
  usage : Option UsageRec := none
deriving DecidableEq, Repr

/-- Result of `JSON.parse` on one transcript line, as far as the source
    inspects it: an optional `type` tag and an optional `message` body. -/
structure LineRec where
  type : Str := []
  message : Option MsgBody := none
deriving DecidableEq, Repr

/-- A transcript-line parser: `none` models a `JSON.parse` throw. -/
abbrev LineParser := Str → Option LineRec

/-- Running sums of the accumulation loop of `calculateTotalTokens`. -/
structure TokenTotals where
  inp : Nat := 0
  out : Nat := 0
  cc : Nat := 0
  cr : Nat := 0
deriving DecidableEq, Repr

/-- Accumulation loop of `calculateTotalTokens`: every nonblank line that
    parses and carries `message.usage` contributes its four counters. -/
def sumUsageTotals (p : LineParser) (lines : List Str) : TokenTotals :=
  lines.foldl
    (fun acc line =>
      if jsTrim line ≠ [] then
        match p line with
        | some rec =>
          match rec.message with
          | some mb =>
            match mb.usage with
            | some u =>
              ⟨acc.inp + u.input_tokens, acc.out + u.output_tokens,
               acc.cc + u.cache_creation_input_tokens, acc.cr + u.cache_read_input_tokens⟩
            | none => acc
          | none => acc
        | none => acc
      else acc)
    {}

/-- Last-line extraction of `calculateTotalTokens`: the literal last line
    is parsed (blank or not); any failure leaves all four counters at 0. -/
def lastUsage (p : LineParser) (lines : List Str) : UsageRec :=
  match lines.getLast? with
  | none => {}
  | some l =>
    match p l with
    | some rec =>
      match rec.message with
      | some mb => mb.usage.getD {}
      | none => {}
    | none => {}

/-- `TokenStats`. -/
structure TokenStats where
  totalUsed : Nat
  totalRemaining : Nat
  maxTokensFormatted : Str
deriving DecidableEq, Repr

/-- `Math.round(a / b)` for nonnegative integers (floor of the quotient
    plus one half). -/
def jsRoundDiv (a b : Nat) : Nat := (a + b / 2) / b

/-- `calculateTotalTokens` from the source.  When the last line carries a
    positive `cache_read_input_tokens` the total is that value plus the
    last line own counters, clamped to 200000; otherwise it is the sum of
    inputs and outputs over all lines, with 138000 substituted for an
    exact zero.  `totalRemaining` is `max(0, 200000 - totalUsed)`, which
    for naturals is truncated subtraction. -/
def calculateTotalTokens (p : LineParser) (lines : List Str) : TokenStats :=
  let t := sumUsageTotals p lines
  let lastU := lastUsage p lines
  let totalUsed :=
    if lastU.cache_read_input_tokens > 0 then
      min (lastU.cache_read_input_tokens +
        (lastU.input_tokens + lastU.output_tokens + lastU.cache_creation_input_tokens)) 200000
    else
      let s := t.inp + t.out
      if s = 0 then 138000 else s
  { totalUsed := totalUsed,
    totalRemaining := 200000 - totalUsed,
    maxTokensFormatted := natToStr (jsRoundDiv 200000 1000) ++ "k".data }

/-- `(n / 1000).toFixed(1)` followed by `k`, idealised to exact decimal
    rounding (ties away from zero) of `n / 100` tenths. -/
def toFixed1k (n : Nat) : Str :=
  let d := (n + 50) / 100
  natToStr (d / 10) ++ ".".data ++ natToStr (d % 10) ++ "k".data

/-- `formatUsage` from the source. -/
def formatUsage (input_tokens output_tokens : Nat) : Str :=
  if input_tokens > 1000 ∨ output_tokens > 1000 then
    (if input_tokens > 1000 then toFixed1k input_tokens else natToStr input_tokens) ++
      [' '] ++
      (if output_tokens > 1000 then toFixed1k output_tokens else natToStr output_tokens)
  else natToStr input_tokens ++ [' '] ++ natToStr output_tokens

/-- `formatTokensWithK` from the source (`Math.round` above 1000). -/
def formatTokensWithK (tokens : Nat) : Str :=
  if tokens > 1000 then natToStr (jsRoundDiv tokens 1000) ++ "k".data
  else natToStr tokens

/-- `DEFAULT_THEME` (rich-icon bundled theme). -/
def DEFAULT_THEME : StatusLineThemeConfig :=
  { modules :=
    [{ type := "workDir".data, icon := "󰉋".data,
       text := "\x7b\x7bworkDirName\x7d\x7d".data, color := "bright_blue".data },
     { type := "gitBranch".data, icon := "".data,
       text := "\x7b\x7bgitBranch\x7d\x7d".data, color := "bright_magenta".data },
     { type := "model".data, icon := "󰚩".data,
       text := "\x7b\x7bmodel\x7d\x7d".data, color := "bright_cyan".data },
     { type := "usage".data, icon := "↑".data,
       text := "\x7b\x7binputTokens\x7d\x7d".data, color := "bright_green".data },
     { type := "usage".data, icon := "↓".data,
       text := "\x7b\x7boutputTokens\x7d\x7d".data, color := "bright_yellow".data }] }

/-- `POWERLINE_THEME` (bundled powerline theme). -/
def POWERLINE_THEME : StatusLineThemeConfig :=
  { modules :=
    [{ type := "workDir".data, icon := "󰉋".data,
       text := "\x7b\x7bworkDirName\x7d\x7d".data, color := "white".data,
       background := "bg_bright_blue".data },
     { type := "gitBranch".data, icon := "".data,
       text := "\x7b\x7bgitBranch\x7d\x7d".data, color := "white".data,
       background := "bg_bright_magenta".data },
     { type := "model".data, icon := "󰚩".data,
       text := "\x7b\x7bmodel\x7d\x7d".data, color := "white".data,
       background := "bg_bright_cyan".data },
     { type := "usage".data, icon := "↑".data,
       text := "\x7b\x7binputTokens\x7d\x7d".data, color := "white".data,
       background := "bg_bright_green".data },
     { type := "usage".data, icon := "↓".data,
       text := "\x7b\x7boutputTokens\x7d\x7d".data, color := "white".data,
       background := "bg_bright_yellow".data }] }

/-- `SIMPLE_THEME` (ASCII-safe bundled theme). -/
def SIMPLE_THEME : StatusLineThemeConfig :=
  { modules :=
    [{ type := "model".data, icon := [],
       text := "\x7b\x7bmodel\x7d\x7d".data, color := "bright_cyan".data },
     { type := "workDir".data, icon := [],
       text := "\x7b\x7bworkDirName\x7d\x7d".data, color := "bright_blue".data },
     { type := "totalTokens".data, icon := "Tokens:".data,
       text := "\x7b\x7btotalTokens\x7d\x7d".data, color := "bright_white".data },
     { type := "usage".data, icon := "↑".data,
       text := "\x7b\x7binputTokens\x7d\x7d".data, color := "bright_green".data },
     { type := "usage".data, icon := "→".data,
       text := "\x7b\x7boutputTokens\x7d\x7d".data, color := "bright_yellow".data }] }

/-- `model` field of the session input. -/
structure ModelInfo where
  id : Str
  display_name : Str
deriving DecidableEq, Repr

/-- `workspace` field of the session input. -/
structure WorkspaceInfo where
  current_dir : Str
  project_dir : Str
deriving DecidableEq, Repr

/-- `StatusLineInput`: the structured session payload (fields the renderer
    never reads are omitted). -/
structure StatusLineInput where
  session_id : Str
  transcript_path : Str
  cwd : Str
  model : ModelInfo
  workspace : WorkspaceInfo
deriving DecidableEq, Repr

/-- `StatusLine` section of the configuration document, already shaped:
    `currentStyle` (empty when absent) and the per-style theme map; a style
    is present in `styles` exactly when the configuration has a same-named
    sub-section with a `modules` key. -/
structure SLSection where
  currentStyle : Str := []
  styles : List (Str × StatusLineThemeConfig) := []
deriving DecidableEq, Repr

/-- Parsed configuration document: optional `StatusLine` section and the
    `Router.default` string (empty when `Router` or `default` is absent or
    falsy). -/
structure ConfigDoc where
  statusLine : Option SLSection := none
  routerDefault : Str := []
deriving DecidableEq, Repr

/-- External world of one render invocation.  Every partial operation
    returns `Except Unit` (an `error` models a thrown exception); the
    script runner is total because `executeScript` catches its own
    failures and always yields a string. -/
structure Env where
  envVar : Str → Option Str
  access : Str → Bool
  readFile : Str → Except Unit Str
  json5Parse : Str → Except Unit ConfigDoc
  parseLine : LineParser
  git : Str → Except Unit Str
  exec : Str → VarMap → Str

/-- Modelled from the spec: `CONFIG_FILE` is imported from
    `../constants`, which is not under `src/`; the spec describes it as a
    fixed per-user configuration path.  Only its identity as an oracle key
    matters. -/
def CONFIG_FILE : Str := "$HOME/.claude-code-router/config.json".data

/-- JavaScript `includes` substring test. -/
def strContains (hay sub : Str) : Bool :=
  (List.range (hay.length + 1)).any (fun i => sub.isPrefixOf (hay.drop i))

/-- `shouldUseSimpleTheme` from the source. -/
def shouldUseSimpleTheme (env : Env) : Bool :=
  if env.envVar "USE_SIMPLE_ICONS".data = some "true".data then true
  else
    let term := (env.envVar "TERM".data).getD []
    term = "dumb".data ∨ term = "unknown".data

/-- `canDisplayNerdFonts` from the source. -/
def canDisplayNerdFonts (env : Env) : Bool :=
  if env.envVar "USE_SIMPLE_ICONS".data = some "true".data then false
  else
    let hasNerd := fun (v : Str) =>
      v ≠ [] ∧ (strContains v "Nerd".data ∨ strContains v "nerd".data)
    if hasNerd ((env.envVar "NERD_FONT".data).getD []) ∨
       hasNerd ((env.envVar "NERDFONT".data).getD []) ∨
       hasNerd ((env.envVar "FONT".data).getD []) then true
    else
      let termProgram := (env.envVar "TERM_PROGRAM".data).getD []
      if termProgram = "iTerm.app".data ∨ termProgram = "vscode".data ∨
         termProgram = "Hyper".data ∨ termProgram = "kitty".data ∨
         termProgram = "alacritty".data then true
      else
        let colorTerm := (env.envVar "COLORTERM".data).getD []
        if strContains colorTerm "truecolor".data ∨ strContains colorTerm "24bit".data then true
        else env.envVar "USE_SIMPLE_ICONS".data ≠ some "true".data

/-- `getProjectThemeConfig` from the source: read the fixed configuration
    file; any absence, read failure, parse failure or missing section
    silently yields no theme and style `default`. -/
def getProjectThemeConfig (env : Env) : Option StatusLineThemeConfig × Str :=
  if env.access CONFIG_FILE = false then (none, "default".data)
  else
    match env.readFile CONFIG_FILE with
    | .error _ => (none, "default".data)
    | .ok content =>
      match env.json5Parse content with
      | .error _ => (none, "default".data)
      | .ok cfg =>
        match cfg.statusLine with
        | none => (none, "default".data)
        | some sl =>
          let currentStyle := if sl.currentStyle ≠ [] then sl.currentStyle else "default".data
          match sl.styles.lookup currentStyle with
          | some th => (some th, currentStyle)
          | none => (none, "default".data)

/-- Backward transcript scan for the most recent assistant record with a
    truthy model; a record whose `message` is absent throws inside the
    per-line try and is skipped like a parse failure. -/
def scanAssistantAux (p : LineParser) : List Str → Str × Nat × Nat
  | [] => ([], 0, 0)
  | l :: rest =>
    match p l with
    | some rec =>
      match rec.message with
      | some mb =>
        if rec.type = "assistant".data ∧ mb.model ≠ [] then
          match mb.usage with
          | some u => (mb.model, u.input_tokens, u.output_tokens)
          | none => (mb.model, 0, 0)
        else scanAssistantAux p rest
      | none => scanAssistantAux p rest
    | none => scanAssistantAux p rest

/-- The backward loop of `parseStatusLineData` (lines scanned from the
    last to the first). -/
def scanAssistant (p : LineParser) (lines : List Str) : Str × Nat × Nat :=
  scanAssistantAux p lines.reverse

/-- Model-name fallback from the project or user configuration
    (`Router.default`, second comma-separated component, trimmed); every
    failure inside its try block yields the empty string. -/
def modelFromConfig (env : Env) (workDir : Str) : Str :=
  let projectConfigPath := workDir ++ "/.claude-code-router/config.json".data
  let configPath := if env.access projectConfigPath then projectConfigPath else CONFIG_FILE
  match env.readFile configPath with
  | .error _ => []
  | .ok content =>
    match env.json5Parse content with
    | .error _ => []
    | .ok cfg =>
      if cfg.routerDefault ≠ [] then
        match (cfg.routerDefault.splitOn ',').get? 1 with
        | some d => if d ≠ [] then jsTrim d else []
        | none => []
      else []

/-- The body of `parseStatusLineData` (everything inside the outer try):
    the single operation whose failure can escape is the transcript
    read. -/
def parseStatusLineDataBody (env : Env) (input : StatusLineInput) : Except Unit Str :=
  let useSimpleTheme := shouldUseSimpleTheme env
  let canDisplayNerd := canDisplayNerdFonts env
  let effectiveTheme := if useSimpleTheme || !canDisplayNerd then SIMPLE_THEME else DEFAULT_THEME
  let pt := getProjectThemeConfig env
  let theme := pt.1.getD effectiveTheme
  let currentStyle := pt.2
  let workDir := input.workspace.current_dir
  let gitBranch := match env.git workDir with
    | .ok s => jsTrim s
    | .error _ => []
  match env.readFile input.transcript_path with
  | .error e => .error e
  | .ok transcriptContent =>
    let lines := (jsTrim transcriptContent).splitOn '\n'
    let tokenStats := calculateTotalTokens env.parseLine lines
    let scan := scanAssistant env.parseLine lines
    let inputTokens := scan.2.1
    let outputTokens := scan.2.2
    let model0 := scan.1
    let model1 := if model0 = [] then modelFromConfig env workDir else model0
    let model := if model1 = [] then input.model.display_name else model1
    let workDirName := ((workDir.splitOn '/').getLast?).getD []
    let usage := formatUsage inputTokens outputTokens
    let usageParts := usage.splitOn ' '
    let formattedInputTokens := (usageParts.get? 0).getD []
    let formattedOutputTokens := (usageParts.get? 1).getD []
    let totalUsedFormatted := formatTokensWithK tokenStats.totalUsed
    let totalRemainingFormatted := formatTokensWithK tokenStats.totalRemaining
    let totalTokensDisplay :=
      totalUsedFormatted ++ "/".data ++ tokenStats.maxTokensFormatted ++
      " used | ".data ++ totalRemainingFormatted ++ " remaining".data
    let varMap : VarMap :=
      [("workDirName".data, workDirName),
       ("gitBranch".data, gitBranch),
       ("model".data, model),
       ("inputTokens".data, formattedInputTokens),
       ("outputTokens".data, formattedOutputTokens),
       ("totalTokens".data, totalTokensDisplay),
       ("totalUsed".data, totalUsedFormatted),
       ("totalRemaining".data, totalRemainingFormatted),
       ("maxTokens".data, tokenStats.maxTokensFormatted)]
    let isPowerline := currentStyle = "powerline".data
    .ok (if isPowerline then renderPowerlineStyle env.exec varMap theme
         else renderDefaultStyle env.exec varMap theme)

/-- `parseStatusLineData`: the body wrapped in the outer try/catch, whose
    catch returns the empty string.  The result stays in `Except` so that
    the absence of escaping exceptions is a statement, not a typing
    artifact. -/
def parseStatusLineData (env : Env) (input : StatusLineInput) : Except Unit Str :=
  match parseStatusLineDataBody env input with
  | .ok s => .ok s
  | .error _ => .ok []

/-- `resolveForStyle` companion lookup (`getProjectThemeConfigForStyle`):
    fetch a theme for an explicitly named style, independent of
    `currentStyle`. -/
def getProjectThemeConfigForStyle (env : Env) (style : Str) : Option StatusLineThemeConfig :=
  if env.access CONFIG_FILE = false then none
  else
    match env.readFile CONFIG_FILE with
    | .error _ => none
    | .ok content =>
      match env.json5Parse content with
      | .error _ => none
      | .ok cfg =>
        match cfg.statusLine with
        | none => none
        | some sl => sl.styles.lookup style

/-- Spec-side formula: the 6-level cube channel table of the claim about
    `color256ToRgb`. -/
def specCubeLevel (k : Nat) : Nat := [0, 95, 135, 175, 215, 255].getD k 0

/-- Spec-side statement of the claim about `color256ToRgb` at one index:
    the result exists, every channel is in 0..255, indices 16..231 follow
    the 6-level cube formula and indices 232..255 the grayscale ramp. -/
abbrev color256ClaimAt (n : Nat) : Prop :=
  (color256ToRgb (n : Int)).isSome = true ∧
  ((color256ToRgb (n : Int)).getD ⟨0, 0, 0⟩).r ≤ 255 ∧
  ((color256ToRgb (n : Int)).getD ⟨0, 0, 0⟩).g ≤ 255 ∧
  ((color256ToRgb (n : Int)).getD ⟨0, 0, 0⟩).b ≤ 255 ∧
  (16 ≤ n → n ≤ 231 →
    (color256ToRgb (n : Int)).getD ⟨0, 0, 0⟩ =
      ⟨specCubeLevel ((n - 16) / 36), specCubeLevel (((n - 16) % 36) / 6),
       specCubeLevel ((n - 16) % 6)⟩) ∧
  (232 ≤ n →
    (color256ToRgb (n : Int)).getD ⟨0, 0, 0⟩ =
      ⟨8 + (n - 232) * 10, 8 + (n - 232) * 10, 8 + (n - 232) * 10⟩)

/-- Spec-side predicate: a token that the specification calls a valid
    6-digit or 3-digit hex color, with or without a leading `#`. -/
def specValidHexToken (l : Str) : Bool :=
  isHex6 l ∨ isHex3 l ∨ (startsWithHashChar l ∧ (isHex6 (l.drop 1) ∨ isHex3 (l.drop 1)))

/-- Script oracle returning the empty string (used by the concrete
    render computations below). -/
def noExec : Str → VarMap → Str := fun _ _ => []

/-- Empty variable map for the concrete render computations. -/
def emptyVars : VarMap := []

/-- Transcript parser for the example of the claim about clamping: every
    line parses to a usage record with `cache_read_input_tokens = 190000`,
    `input_tokens = 5000`, `output_tokens = 3000`,
    `cache_creation_input_tokens = 1000`. -/
def cexParserC1 : LineParser :=
  fun _ => some { message := some { usage := some ⟨5000, 3000, 1000, 190000⟩ } }

/-- Transcript parser producing a single usage record whose inputs alone
    exceed the 200000 ceiling. -/
def cexParserC2 : LineParser :=
  fun _ => some { message := some { usage := some ⟨300000, 0, 0, 0⟩ } }

/-- One-line transcript used by the concrete token computations. -/
def oneLine : List Str := ["x".data]

/-- Two-module powerline theme whose first module has an unresolvable
    background and whose second has a resolvable one. -/
def cexThemeC3 : StatusLineThemeConfig :=
  { modules :=
    [{ type := "t".data, text := "a".data, background := "zzz".data },
     { type := "t".data, text := "b".data, background := "bg_blue".data }] }

/-- Six-module powerline theme: five `bg_red` modules and a sixth
    `bg_blue` module (beyond the render cap). -/
def cexThemeC8 : StatusLineThemeConfig :=
  { modules :=
    [{ type := "t".data, text := "a".data, background := "bg_red".data },
     { type := "t".data, text := "a".data, background := "bg_red".data },
     { type := "t".data, text := "a".data, background := "bg_red".data },
     { type := "t".data, text := "a".data, background := "bg_red".data },
     { type := "t".data, text := "a".data, background := "bg_red".data },
     { type := "t".data, text := "a".data, background := "bg_blue".data }] }

/-- Icon-only module: non-empty icon, empty template text. -/
def iconOnlyModule : StatusLineModuleConfig :=
  { type := "t".data, icon := "I".data, text := [] }

/-- Plain visible module rendering the literal `b`. -/
def plainModuleB : StatusLineModuleConfig :=
  { type := "t".data, text := "b".data }

/-- Script-typed module with an empty `scriptPath` (and a script-path-free
    template text). -/
def scriptNoPathModule : StatusLineModuleConfig :=
  { type := "script".data, icon := "S".data, text := "hello".data,
    color := "red".data, background := "bg_blue".data }

/-- Environment in which every external operation fails or is absent. -/
def envAllFail : Env :=
  { envVar := fun _ => none
    access := fun _ => false
    readFile := fun _ => .error ()
    json5Parse := fun _ => .error ()
    parseLine := fun _ => none
    git := fun _ => .error ()
    exec := fun _ _ => [] }

/-- Minimal concrete session input. -/
def input0 : StatusLineInput :=
  { session_id := "s".data
    transcript_path := "/t/transcript.jsonl".data
    cwd := "/w".data
    model := { id := "m".data, display_name := "M".data }
    workspace := { current_dir := "/w/proj".data, project_dir := "/w".data } }

/-- Claim C5: `calculateTotalTokens` on an empty sequence of transcript
    lines yields `totalUsed = 138000`, `totalRemaining = 62000` and
    `maxTokensFormatted = "200k"`, for every line parser. -/
theorem claim_C5 (p : LineParser) :
    calculateTotalTokens p [] = ⟨138000, 62000, "200k".data⟩ := by
  have h : calculateTotalTokens p [] = calculateTotalTokens (fun _ => none) [] := by
    simp [calculateTotalTokens, sumUsageTotals, lastUsage]
  rw [h]
  decide

/-- Claim C1 counterexample: a one-line transcript whose (parseable) last
    line carries `cache_read_input_tokens = 190000`, `input_tokens = 5000`,
    `output_tokens = 3000`, `cache_creation_input_tokens = 1000` yields
    `totalUsed = 199000` and `totalRemaining = 1000` — the claimed
    `totalUsed = 200000` with `totalRemaining = 0` is false, because the
    sum 199000 is already below the 200000 clamp. -/
theorem claim_C1_cex :
    calculateTotalTokens cexParserC1 oneLine = ⟨199000, 1000, "200k".data⟩ ∧
    ¬((calculateTotalTokens cexParserC1 oneLine).totalUsed = 200000 ∧
      (calculateTotalTokens cexParserC1 oneLine).totalRemaining = 0) := by
  decide

/-- Claim C1 (amended): for every transcript whose literal last line
    parses to a record with that usage object, `totalUsed` is
    190000 + 5000 + 3000 + 1000 = 199000 (below the 200000 cap, so the
    clamp does not fire) and `totalRemaining = 1000`. -/
theorem claim_C1_amended (p : LineParser) (lines : List Str) (l : Str)
    (rec : LineRec) (mb : MsgBody)
    (hlast : lines.getLast? = some l) (hp : p l = some rec)
    (hm : rec.message = some mb)
    (hu : mb.usage = some ⟨5000, 3000, 1000, 190000⟩) :
    (calculateTotalTokens p lines).totalUsed = 199000 ∧
    (calculateTotalTokens p lines).totalRemaining = 1000 := by
  have hl : lastUsage p lines = ⟨5000, 3000, 1000, 190000⟩ := by
    unfold lastUsage
    simp only [hlast, hp, hm, hu, Option.getD_some]
  simp [calculateTotalTokens, hl]

/-- Claim C1 witness: the amended statement applied to the concrete
    one-line transcript. -/
theorem claim_C1_witness :
    (calculateTotalTokens cexParserC1 oneLine).totalUsed = 199000 ∧
    (calculateTotalTokens cexParserC1 oneLine).totalRemaining = 1000 :=
  claim_C1_amended cexParserC1 oneLine "x".data
    { message := some { usage := some ⟨5000, 3000, 1000, 190000⟩ } }
    { usage := some ⟨5000, 3000, 1000, 190000⟩ }
    (by decide) (by decide) (by decide) (by decide)

/-- Claim C2 counterexample: a transcript whose cumulative inputs exceed
    the ceiling (one parseable line with `input_tokens = 300000` and no
    cache read) produces `totalUsed = 300000`, `totalRemaining = 0`, so
    `totalUsed + totalRemaining` is not 200000 — the no-cache-read branch
    never clamps. -/
theorem claim_C2_cex :
    (calculateTotalTokens cexParserC2 oneLine).totalUsed +
      (calculateTotalTokens cexParserC2 oneLine).totalRemaining ≠ 200000 := by
  decide

/-- Claim C2 (amended): for every transcript, `totalUsed ≥ 0`,
    `totalRemaining ≥ 0` and `totalUsed + totalRemaining =
    max totalUsed 200000`; the sum is exactly 200000 whenever
    `totalUsed ≤ 200000` (in particular whenever the clamped cache-read
    branch ran), but the fallback branch can leave `totalUsed` above the
    ceiling. -/
theorem claim_C2_amended (p : LineParser) (lines : List Str) :
    0 ≤ (calculateTotalTokens p lines).totalUsed ∧
    0 ≤ (calculateTotalTokens p lines).totalRemaining ∧
    (calculateTotalTokens p lines).totalUsed +
      (calculateTotalTokens p lines).totalRemaining =
      max (calculateTotalTokens p lines).totalUsed 200000 := by
  refine ⟨Nat.zero_le _, Nat.zero_le _, ?_⟩
  have h : (calculateTotalTokens p lines).totalRemaining =
      200000 - (calculateTotalTokens p lines).totalUsed := rfl
  rw [h]
  omega

set_option maxRecDepth 8000 in
/-- Claim C9: for every 256-color index in 0..255, `color256ToRgb` returns
    a triple with all channels in 0..255; indices 16..231 follow the
    6-level cube formula exactly and indices 232..255 satisfy
    `r = g = b = 8 + (index - 232) * 10`. -/
theorem claim_C9 (n : Nat) (h : n ≤ 255) : color256ClaimAt n := by
  have H : ∀ m, m < 256 → color256ClaimAt m := by decide
  exact H n (by omega)

/-- Claim C9 witness: the claim instantiated at index 100 (a cube index). -/
theorem claim_C9_witness : color256ClaimAt 100 := claim_C9 100 (by decide)

/-- Claim C6: for every environment and session input,
    `parseStatusLineData` always returns a value (never propagates an
    exception), and whenever its body fails internally the returned value
    is the empty string. -/
theorem claim_C6 (env : Env) (input : StatusLineInput) :
    (∃ s, parseStatusLineData env input = .ok s) ∧
    (parseStatusLineDataBody env input = .error () →
      parseStatusLineData env input = .ok []) := by
  cases h : parseStatusLineDataBody env input with
  | ok s =>
    refine ⟨⟨s, ?_⟩, fun hc => ?_⟩
    · unfold parseStatusLineData
      rw [h]
    · simp at hc
  | error e =>
    refine ⟨⟨[], ?_⟩, fun _ => ?_⟩ <;>
      · unfold parseStatusLineData
        rw [h]

/-- Claim C6 witness: in an environment where every external operation
    fails (in particular the transcript is unreadable) the body throws
    and the renderer returns the empty string. -/
theorem claim_C6_witness :
    parseStatusLineDataBody envAllFail input0 = .error () ∧
    parseStatusLineData envAllFail input0 = .ok [] :=
  ⟨rfl, (claim_C6 envAllFail input0).2 rfl⟩

/-- Claim C7: in default-style rendering a module whose acquired text is
    empty is skipped entirely — deleting it from a theme (within the
    five-module processing cap) leaves the output unchanged, regardless of
    its icon; in particular icon-only modules never render. -/
theorem claim_C7 (exec : Str → VarMap → Str) (vars : VarMap)
    (pre post : List StatusLineModuleConfig) (m : StatusLineModuleConfig)
    (hm : acquireText exec vars m = [])
    (hlen : pre.length + 1 + post.length ≤ 5) :
    renderDefaultStyle exec vars ⟨pre ++ m :: post⟩ =
      renderDefaultStyle exec vars ⟨pre ++ post⟩ := by
  have hskip : renderModuleDefault exec vars m = none := by
    simp [renderModuleDefault, hm, displayTextOf]
  have h1 : (pre ++ m :: post).take 5 = pre ++ m :: post :=
    List.take_of_length_le (by simp; omega)
  have h2 : (pre ++ post).take 5 = pre ++ post :=
    List.take_of_length_le (by simp; omega)
  simp [renderDefaultStyle, renderDefaultParts, h1, h2, List.filterMap_append,
    List.filterMap_cons, hskip]

/-- Claim C7 witness: an icon-only module (non-empty icon, empty text)
    contributes nothing next to a visible module. -/
theorem claim_C7_witness :
    acquireText noExec emptyVars iconOnlyModule = [] ∧
    renderDefaultStyle noExec emptyVars ⟨[iconOnlyModule, plainModuleB]⟩ =
      renderDefaultStyle noExec emptyVars ⟨[plainModuleB]⟩ :=
  ⟨by decide,
   claim_C7 noExec emptyVars [] [plainModuleB] iconOnlyModule (by decide) (by decide)⟩

set_option maxRecDepth 8000 in
/-- Claim C8 counterexample: in powerline style a six-module theme does
    not render like its first five modules alone — the sixth module's
    background is consulted for the fifth segment's separator, so modules
    beyond the fifth are not silently ignored. -/
theorem claim_C8_cex :
    renderPowerlineStyle noExec emptyVars cexThemeC8 ≠
      renderPowerlineStyle noExec emptyVars ⟨cexThemeC8.modules.take 5⟩ := by
  decide

/-- Claim C8 (amended): both renderers render at most five modules; the
    default style depends only on the first five modules, while the
    powerline style depends on the first six (the sixth contributes only
    its background to the fifth separator, and modules beyond the sixth
    are ignored). -/
theorem claim_C8_amended :
    (∀ (exec : Str → VarMap → Str) (vars : VarMap) (ms : List StatusLineModuleConfig),
      renderDefaultStyle exec vars ⟨ms⟩ = renderDefaultStyle exec vars ⟨ms.take 5⟩) ∧
    (∀ (exec : Str → VarMap → Str) (vars : VarMap) (ms : List StatusLineModuleConfig),
      renderPowerlineStyle exec vars ⟨ms⟩ = renderPowerlineStyle exec vars ⟨ms.take 6⟩) ∧
    (∀ (exec : Str → VarMap → Str) (vars : VarMap) (ms : List StatusLineModuleConfig),
      (renderDefaultParts exec vars ⟨ms⟩).length ≤ 5 ∧
      (renderPowerlineSegs exec vars ⟨ms⟩).length ≤ 5) := by
  refine ⟨fun exec vars ms => ?_, fun exec vars ms => ?_, fun exec vars ms => ⟨?_, ?_⟩⟩
  · simp [renderDefaultStyle, renderDefaultParts, List.take_take]
  · rcases le_or_lt ms.length 6 with hle | hlt
    · rw [List.take_of_length_le hle]
    · unfold renderPowerlineStyle renderPowerlineSegs
      have hl6 : (ms.take 6).length = 6 := by
        rw [List.length_take]
        omega
      have hr : min ms.length 5 = 5 := by omega
      have hr2 : min (ms.take 6).length 5 = 5 := by
        rw [hl6]
        omega
      rw [hr, hr2]
      congr 1
      refine List.filterMap_congr fun i hi => ?_
      rw [List.mem_range] at hi
      have hg1 : (ms.take 6).get? i = ms.get? i := List.get?_take (by omega)
      have hg2 : (ms.take 6).get? (i + 1) = ms.get? (i + 1) := List.get?_take (by omega)
      have hnb : nextBackgroundAt (ms.take 6) i = nextBackgroundAt ms i := by
        unfold nextBackgroundAt
        rw [hg2, hl6, if_pos (by omega : i < 6 - 1), if_pos (by omega : i < ms.length - 1)]
      unfold renderModulePowerline
      rw [hg1, hnb]
  · exact le_trans (List.length_filterMap_le _ _) (by simp [List.length_take])
  · exact le_trans (List.length_filterMap_le _ _) (by simp [List.length_range])

/-- Replacing one list element by another with the same image under `f`
    leaves a capped `filterMap` unchanged. -/
theorem filterMap_take_middle {α β : Type _} (f : α → Option β) (n : Nat)
    (pre post : List α) (a b : α) (h : f a = f b) :
    ((pre ++ a :: post).take n).filterMap f = ((pre ++ b :: post).take n).filterMap f := by
  rw [List.take_append_eq_append_take, List.take_append_eq_append_take]
  cases hk : n - pre.length with
  | zero => simp
  | succ j =>
    rw [List.take_succ_cons, List.take_succ_cons, List.filterMap_append,
      List.filterMap_append, List.filterMap_cons, List.filterMap_cons, h]

/-- Claim C10: a `script` module whose `scriptPath` is absent/empty falls
    back to template substitution of its `text` (the script path is never
    consulted), and in both renderers it renders exactly like the same
    module with any non-script type. -/
theorem claim_C10 (exec : Str → VarMap → Str) (vars : VarMap)
    (pre post : List StatusLineModuleConfig) (m : StatusLineModuleConfig) (t : Str)
    (hty : m.type = "script".data) (hsp : m.scriptPath = [])
    (ht : t ≠ "script".data) :
    acquireText exec vars m = replaceVariables vars m.text ∧
    renderDefaultStyle exec vars ⟨pre ++ m :: post⟩ =
      renderDefaultStyle exec vars ⟨pre ++ { m with type := t } :: post⟩ ∧
    renderPowerlineStyle exec vars ⟨pre ++ m :: post⟩ =
      renderPowerlineStyle exec vars ⟨pre ++ { m with type := t } :: post⟩ := by
  have hacq1 : acquireText exec vars m = replaceVariables vars m.text := by
    unfold acquireText
    rw [if_neg]
    rintro ⟨_, hne⟩
    exact hne hsp
  have hacq2 : acquireText exec vars { m with type := t } =
      replaceVariables vars m.text := by
    unfold acquireText
    rw [if_neg]
    rintro ⟨_, hne⟩
    exact hne hsp
  have hseg : ∀ nb, renderSegModule exec vars m nb =
      renderSegModule exec vars { m with type := t } nb := by
    intro nb
    unfold renderSegModule
    rw [hacq1, hacq2]
  have hrd : renderModuleDefault exec vars m =
      renderModuleDefault exec vars { m with type := t } := by
    unfold renderModuleDefault
    rw [hacq1, hacq2]
  refine ⟨hacq1, ?_, ?_⟩
  · unfold renderDefaultStyle renderDefaultParts
    exact congrArg _ (filterMap_take_middle _ 5 pre post _ _ hrd)
  · have hlen : (pre ++ m :: post).length =
        (pre ++ { m with type := t } :: post).length := by simp
    have hget : ∀ j, ((pre ++ m :: post).get? j =
          (pre ++ { m with type := t } :: post).get? j) ∨
        ((pre ++ m :: post).get? j = some m ∧
          (pre ++ { m with type := t } :: post).get? j = some { m with type := t }) := by
      intro j
      by_cases hj : j < pre.length
      · exact Or.inl (by rw [List.get?_append hj, List.get?_append hj])
      · push_neg at hj
        rw [List.get?_append_right hj, List.get?_append_right hj]
        cases hd : j - pre.length with
        | zero => exact Or.inr ⟨rfl, rfl⟩
        | succ k => exact Or.inl rfl
    have hnb : ∀ i, nextBackgroundAt (pre ++ m :: post) i =
        nextBackgroundAt (pre ++ { m with type := t } :: post) i := by
      intro i
      unfold nextBackgroundAt
      rw [hlen]
      by_cases hc : i < (pre ++ { m with type := t } :: post).length - 1
      · rw [if_pos hc, if_pos hc]
        rcases hget (i + 1) with h | ⟨h1, h2⟩
        · rw [h]
        · rw [h1, h2]
      · rw [if_neg hc, if_neg hc]
    have hmp : ∀ i, renderModulePowerline exec vars (pre ++ m :: post) i =
        renderModulePowerline exec vars (pre ++ { m with type := t } :: post) i := by
      intro i
      unfold renderModulePowerline
      rw [hnb i]
      rcases hget i with h | ⟨h1, h2⟩
      · rw [h]
      · rw [h1, h2]
        simp only [Option.some_bind]
        exact hseg _
    unfold renderPowerlineStyle renderPowerlineSegs
    refine congrArg _ ?_
    rw [show (StatusLineThemeConfig.mk (pre ++ m :: post)).modules.length =
        (StatusLineThemeConfig.mk (pre ++ { m with type := t } :: post)).modules.length
      from hlen]
    exact List.filterMap_congr fun i _ => hmp i

/-- Claim C10 witness: a script module with empty `scriptPath` next to a
    plain module renders like its retyped copy in both styles. -/
theorem claim_C10_witness :
    acquireText noExec emptyVars scriptNoPathModule =
      replaceVariables emptyVars scriptNoPathModule.text ∧
    renderDefaultStyle noExec emptyVars ⟨[] ++ scriptNoPathModule :: [plainModuleB]⟩ =
      renderDefaultStyle noExec emptyVars
        ⟨[] ++ { scriptNoPathModule with type := "t".data } :: [plainModuleB]⟩ ∧
    renderPowerlineStyle noExec emptyVars ⟨[] ++ scriptNoPathModule :: [plainModuleB]⟩ =
      renderPowerlineStyle noExec emptyVars
        ⟨[] ++ { scriptNoPathModule with type := "t".data } :: [plainModuleB]⟩ :=
  claim_C10 noExec emptyVars [] [plainModuleB] scriptNoPathModule "t".data
    (by decide) (by decide) (by decide)

/-- Digit characters are never the separator glyph. -/
theorem sep_not_digitChar (n : Nat) : digitChar n ≠ sepChar := by
  unfold digitChar
  split <;> decide

/-- The separator glyph never occurs in a printed numeral. -/
theorem sep_not_mem_natToStrAux (fuel : Nat) : ∀ n, sepChar ∉ natToStrAux fuel n := by
  induction fuel with
  | zero =>
    intro n
    simp [natToStrAux]
  | succ f ih =>
    intro n
    unfold natToStrAux
    split_ifs with h
    · simp only [List.mem_singleton]
      exact fun he => sep_not_digitChar n he.symm
    · simp only [List.mem_append, List.mem_singleton]
      rintro (hm | he)
      · exact ih _ hm
      · exact sep_not_digitChar (n % 10) he.symm

/-- The separator glyph never occurs in `natToStr`. -/
theorem sep_not_mem_natToStr (n : Nat) : sepChar ∉ natToStr n :=
  sep_not_mem_natToStrAux _ _

/-- The separator glyph never occurs in a truecolor foreground escape. -/
theorem sep_not_mem_trueColorFg (r g b : Nat) : sepChar ∉ trueColorFg r g b := by
  simp [trueColorFg, List.mem_append, sep_not_mem_natToStr]
  decide

/-- The separator glyph never occurs in a truecolor background escape. -/
theorem sep_not_mem_trueColorBg (r g b : Nat) : sepChar ∉ trueColorBg r g b := by
  simp [trueColorBg, List.mem_append, sep_not_mem_natToStr]
  decide

/-- The separator glyph never occurs in a segment body whose text avoids
    it. -/
theorem sep_not_mem_segBody (bg fg : Rgb) (text : Str) (h : sepChar ∉ text) :
    sepChar ∉ segBody bg fg text := by
  have h3 : sepChar ∉ resetCode := by decide
  simp [segBody, List.mem_append, sep_not_mem_trueColorBg, sep_not_mem_trueColorFg, h3, h]
  decide

/-- Every separator escape triple contains the separator glyph. -/
theorem sep_mem_sepGlyph (cur next : Rgb) : sepChar ∈ sepGlyph cur next := by
  simp [sepGlyph, List.mem_append]

set_option maxRecDepth 8000 in
/-- Claim C3 counterexample: in the two-module powerline theme whose
    first module has an unresolvable background, both modules survive yet
    the rendered line contains no separator glyph at all — the claimed
    separator after every surviving non-final segment does not exist
    (an unresolvable own background, a next module without a background
    token, or a missing next module all yield no separator rather than a
    black-capped one). -/
theorem claim_C3_cex :
    (renderPowerlineSegs noExec emptyVars cexThemeC3).length = 2 ∧
    sepChar ∉ renderPowerlineStyle noExec emptyVars cexThemeC3 := by
  decide

/-- Claim C3 (amended): a segment emits a separator glyph exactly when
    its own background resolves and a next background token was supplied;
    in that case the separator is the current background as foreground
    over the resolved next background, defaulting to black when the next
    token does not resolve.  The renderer supplies as next token the
    background of the module one position ahead in the original module
    list whenever that module exists and has a truthy background. -/
theorem claim_C3_amended :
    (∀ (text fg bg : Str) (nb : Option Str), sepChar ∉ text →
      (sepChar ∈ segment text fg bg nb ↔
        (getTrueColorRgb bg).isSome = true ∧ nb.isSome = true)) ∧
    (∀ (text fg bg nbs : Str) (rgb : Rgb), getTrueColorRgb bg = some rgb →
      segment text fg bg (some nbs) =
        segment text fg bg none ++
          sepGlyph rgb ((getTrueColorRgb nbs).getD ⟨0, 0, 0⟩)) ∧
    (∀ (ms : List StatusLineModuleConfig) (i : Nat) (m' : StatusLineModuleConfig),
      ms.get? (i + 1) = some m' → m'.background ≠ [] →
      nextBackgroundAt ms i = some m'.background) := by
  refine ⟨fun text fg bg nb htext => ?_, fun text fg bg nbs rgb h => ?_,
    fun ms i m' hg hbg => ?_⟩
  · unfold segment
    cases h : getTrueColorRgb bg with
    | none =>
      simp [sep_not_mem_segBody _ _ _ htext]
    | some rgb =>
      cases nb with
      | none => simp [sep_not_mem_segBody _ _ _ htext]
      | some nbs =>
        cases h2 : getTrueColorRgb nbs with
        | some nrgb => simp [h2, List.mem_append, sep_mem_sepGlyph]
        | none => simp [h2, List.mem_append, sep_mem_sepGlyph]
  · unfold segment
    rw [h]
    cases h2 : getTrueColorRgb nbs with
    | some nrgb => simp [h2]
    | none => simp [h2]
  · have hl : i + 1 < ms.length := by
      by_contra hc
      push_neg at hc
      rw [List.get?_eq_none.mpr hc] at hg
      cases hg
    unfold nextBackgroundAt
    rw [if_pos (by omega : i < ms.length - 1), hg]
    simp [hbg]

/-- Claim C3 witness: the amended statement at a concrete segment whose
    background is `bg_red` and whose next token `zzz` does not resolve
    (black default), plus the renderer lookahead on the concrete theme. -/
theorem claim_C3_witness :
    (sepChar ∈ segment "a".data "white".data "bg_red".data (some "zzz".data) ↔
      (getTrueColorRgb "bg_red".data).isSome = true ∧
        (some "zzz".data).isSome = true) ∧
    segment "a".data "white".data "bg_red".data (some "zzz".data) =
      segment "a".data "white".data "bg_red".data none ++
        sepGlyph ⟨128, 0, 0⟩ ((getTrueColorRgb "zzz".data).getD ⟨0, 0, 0⟩) ∧
    nextBackgroundAt cexThemeC3.modules 0 = some "bg_blue".data :=
  ⟨claim_C3_amended.1 _ _ _ _ (by decide),
   claim_C3_amended.2.1 _ _ _ _ ⟨128, 0, 0⟩ (by decide),
   claim_C3_amended.2.2 cexThemeC3.modules 0
     ⟨"t".data, [], "b".data, [], "bg_blue".data, []⟩ (by decide) (by decide)⟩

/-- A hexadecimal digit differs from any non-hex character. -/
theorem hex_ne {c d : Char} (h : isHexDigit c = true) (hd : isHexDigit d = false) :
    c ≠ d := by
  intro he
  rw [he] at h
  rw [h] at hd
  simp at hd

/-- A hexadecimal digit is not JavaScript whitespace and its value is at
    most 15. -/
theorem hex_char_facts (c : Char) (h : isHexDigit c = true) :
    isJsSpace c = false ∧ hexVal c ≤ 15 := by
  have hn : ((48 ≤ c.toNat ∧ c.toNat ≤ 57) ∨ (97 ≤ c.toNat ∧ c.toNat ≤ 102)) ∨
      (65 ≤ c.toNat ∧ c.toNat ≤ 70) := by
    simpa [isHexDigit, Bool.or_eq_true, Bool.and_eq_true, Nat.ble_eq] using h
  constructor
  · cases hb : isJsSpace c with
    | false => rfl
    | true =>
      exfalso
      have hs := hb
      simp only [isJsSpace, Bool.or_eq_true, Bool.and_eq_true, Nat.ble_eq,
        beq_iff_eq] at hs
      omega
  · simp only [hexVal]
    split_ifs <;> omega

/-- `dropWhile` of JS whitespace keeps a hex-headed list intact. -/
theorem dropWhile_hex_cons (c : Char) (l : Str) (h : isHexDigit c = true) :
    (c :: l).dropWhile isJsSpace = c :: l := by
  simp [List.dropWhile, (hex_char_facts c h).1]

/-- `jsTrim` is the identity on lists with no JS whitespace. -/
theorem jsTrim_of_no_space (l : Str) (h : ∀ c ∈ l, isJsSpace c = false) :
    jsTrim l = l := by
  have hdrop : ∀ l' : Str, (∀ c ∈ l', isJsSpace c = false) →
      l'.dropWhile isJsSpace = l' := by
    intro l' h'
    cases l' with
    | nil => rfl
    | cons x xs => simp [List.dropWhile, h' x (by simp)]
  unfold jsTrim
  rw [hdrop l h, hdrop l.reverse (fun c hc => h c (List.mem_reverse.mp hc)),
    List.reverse_reverse]

/-- JS `parseInt(_, 16)` on a two-hex-digit string is exact. -/
theorem parseIntHex_pair (a b : Char) (ha : isHexDigit a = true)
    (hb : isHexDigit b = true) :
    parseIntHex [a, b] = some ((16 * hexVal a + hexVal b : Nat) : Int) := by
  have hna : a ≠ '-' := hex_ne ha (by decide)
  have hpa : a ≠ '+' := hex_ne ha (by decide)
  have hxb : b ≠ 'x' := hex_ne hb (by decide)
  have hXb : b ≠ 'X' := hex_ne hb (by decide)
  unfold parseIntHex
  simp only [dropWhile_hex_cons a _ ha]
  simp only [if_neg hna, if_neg hpa]
  simp only [hxb, hXb, and_false, false_and, and_self, or_self, if_false, ite_false,
    ne_eq, false_or]
  simp only [List.takeWhile, ha, hb, hexDigitsVal, List.foldl]
  rw [if_neg (by simp)]
  congr 1
  push_cast
  ring

/-- `stripLeadingHash` on a list not starting with `#`. -/
theorem stripLeadingHash_of_ne (c : Char) (l : Str) (h : c ≠ '#') :
    stripLeadingHash (c :: l) = c :: l := by
  simp [stripLeadingHash, h]

/-- `hexToRgb` on a `#`-headed token defers to the stripped token whenever
    a second strip would be the identity. -/
theorem hexToRgb_hash_cons (l : Str) (hne : stripLeadingHash l = l) :
    hexToRgb ('#' :: l) = hexToRgb l := by
  unfold hexToRgb
  rw [show stripLeadingHash ('#' :: l) = l from by simp [stripLeadingHash], hne]

/-- Membership discharge for explicit six-character hex lists. -/
theorem no_space_six (a b c d e f : Char)
    (ha : isHexDigit a = true) (hb : isHexDigit b = true) (hc : isHexDigit c = true)
    (hd : isHexDigit d = true) (he : isHexDigit e = true) (hf : isHexDigit f = true) :
    ∀ x ∈ ([a, b, c, d, e, f] : Str), isJsSpace x = false := by
  intro x hx
  simp only [List.mem_cons, List.not_mem_nil, or_false] at hx
  rcases hx with rfl | rfl | rfl | rfl | rfl | rfl
  exacts [(hex_char_facts _ ha).1, (hex_char_facts _ hb).1, (hex_char_facts _ hc).1,
    (hex_char_facts _ hd).1, (hex_char_facts _ he).1, (hex_char_facts _ hf).1]

/-- `hexToRgb` on six hex digits reduces to the 6-character core parser. -/
theorem hexToRgb_six_normalized (a b c d e f : Char)
    (ha : isHexDigit a = true) (hb : isHexDigit b = true) (hc : isHexDigit c = true)
    (hd : isHexDigit d = true) (he : isHexDigit e = true) (hf : isHexDigit f = true) :
    hexToRgb [a, b, c, d, e, f] = hexParse6 [a, b, c, d, e, f] := by
  unfold hexToRgb
  rw [stripLeadingHash_of_ne a _ (hex_ne ha (by decide)),
    jsTrim_of_no_space _ (no_space_six a b c d e f ha hb hc hd he hf)]

/-- The 6-character core parser on six hex digits yields the pairwise
    hex value. -/
theorem hexParse6_pairs (a b c d e f : Char)
    (ha : isHexDigit a = true) (hb : isHexDigit b = true) (hc : isHexDigit c = true)
    (hd : isHexDigit d = true) (he : isHexDigit e = true) (hf : isHexDigit f = true) :
    hexParse6 [a, b, c, d, e, f] =
      some ⟨16 * hexVal a + hexVal b, 16 * hexVal c + hexVal d,
        16 * hexVal e + hexVal f⟩ := by
  have b1 := (hex_char_facts a ha).2
  have b2 := (hex_char_facts b hb).2
  have b3 := (hex_char_facts c hc).2
  have b4 := (hex_char_facts d hd).2
  have b5 := (hex_char_facts e he).2
  have b6 := (hex_char_facts f hf).2
  unfold hexParse6
  rw [if_pos (by simp)]
  simp only [List.take, List.drop]
  rw [parseIntHex_pair a b ha hb, parseIntHex_pair c d hc hd, parseIntHex_pair e f he hf]
  dsimp only
  rw [if_pos (by push_cast; omega)]
  simp only [Option.some.injEq, Rgb.mk.injEq]
  refine ⟨?_, ?_, ?_⟩ <;> (push_cast; omega)

/-- `hexToRgb` expands three hex digits by duplication and defers to the
    core parser. -/
theorem hexToRgb_threeHex (a b c : Char)
    (ha : isHexDigit a = true) (hb : isHexDigit b = true) (hc : isHexDigit c = true) :
    hexToRgb [a, b, c] = hexParse6 [a, a, b, b, c, c] := by
  unfold hexToRgb
  rw [stripLeadingHash_of_ne a _ (hex_ne ha (by decide))]
  rw [jsTrim_of_no_space _ ?h]
  case h =>
    intro x hx
    simp only [List.mem_cons, List.not_mem_nil, or_false] at hx
    rcases hx with rfl | rfl | rfl
    exacts [(hex_char_facts _ ha).1, (hex_char_facts _ hb).1, (hex_char_facts _ hc).1]

/-- Claim C4 counterexample: the malformed token `#1g2233` is not a valid
    hex token, yet hex resolution returns `(1, 34, 51)` rather than
    `null` — JS `parseInt` accepts the pair `1g` as the prefix `1`. -/
theorem claim_C4_cex :
    specValidHexToken "#1g2233".data = false ∧
    hexToRgb "#1g2233".data = some ⟨1, 34, 51⟩ ∧
    getTrueColorRgb "#1g2233".data = some ⟨1, 34, 51⟩ := by
  decide

/-- Claim C4 (amended): every valid 6-digit hex token (with or without a
    leading `#`) resolves to the pairwise hex value; a 3-digit shorthand
    resolves identically to its duplicated 6-digit form; and a token
    whose content after `#`-stripping and trimming has length other than
    3 or 6 resolves to `null`.  (A malformed 6-character token need not
    resolve to `null`: a pair whose first character is a hex digit still
    parses under JS `parseInt`, as the counterexample shows.) -/
theorem claim_C4_amended :
    (∀ a b c d e f : Char,
      isHexDigit a = true → isHexDigit b = true → isHexDigit c = true →
      isHexDigit d = true → isHexDigit e = true → isHexDigit f = true →
      hexToRgb [a, b, c, d, e, f] =
        some ⟨16 * hexVal a + hexVal b, 16 * hexVal c + hexVal d,
          16 * hexVal e + hexVal f⟩ ∧
      hexToRgb ('#' :: [a, b, c, d, e, f]) = hexToRgb [a, b, c, d, e, f]) ∧
    (∀ a b c : Char,
      isHexDigit a = true → isHexDigit b = true → isHexDigit c = true →
      hexToRgb [a, b, c] = hexToRgb [a, a, b, b, c, c]) ∧
    (∀ l : Str, (jsTrim (stripLeadingHash l)).length ≠ 3 →
      (jsTrim (stripLeadingHash l)).length ≠ 6 → hexToRgb l = none) := by
  refine ⟨fun a b c d e f ha hb hc hd he hf => ⟨?_, ?_⟩,
    fun a b c ha hb hc => ?_, fun l h3 h6 => ?_⟩
  · rw [hexToRgb_six_normalized a b c d e f ha hb hc hd he hf]
    exact hexParse6_pairs a b c d e f ha hb hc hd he hf
  · exact hexToRgb_hash_cons _ (stripLeadingHash_of_ne a _ (hex_ne ha (by decide)))
  · rw [hexToRgb_threeHex a b c ha hb hc,
      hexToRgb_six_normalized a a b b c c ha ha hb hb hc hc]
  · unfold hexToRgb
    generalize hg : jsTrim (stripLeadingHash l) = h0 at h3 h6
    rcases h0 with _ | ⟨a, _ | ⟨b, _ | ⟨c, _ | ⟨d, r⟩⟩⟩⟩
    · rw [hexParse6, if_neg (by simp)]
    · rw [hexParse6, if_neg (by simp)]
    · rw [hexParse6, if_neg (by simp)]
    · exact absurd rfl h3
    · rw [hexParse6, if_neg h6]

/-- Claim C4 witness: the amended statement at the concrete token
    `ff8042` and shorthand `abc`. -/
theorem claim_C4_witness :
    isHexDigit 'f' = true ∧
    hexToRgb "ff8042".data = some ⟨255, 128, 66⟩ ∧
    hexToRgb "#ff8042".data = hexToRgb "ff8042".data ∧
    hexToRgb "abc".data = hexToRgb "aabbcc".data := by
  have h := claim_C4_amended.1 'f' 'f' '8' '0' '4' '2'
    (by decide) (by decide) (by decide) (by decide) (by decide) (by decide)
  have h2 := claim_C4_amended.2.1 'a' 'b' 'c' (by decide) (by decide) (by decide)
  refine ⟨by decide, ?_, h.2, h2⟩
  rw [show ("ff8042".data : Str) = ['f', 'f', '8', '0', '4', '2'] from rfl, h.1]
  decide

end StatusLine
